import Mathlib

/-!
Shallow embedding of `src/oom_alloc.c` (a dnsmasq OOM demonstration tool).

The program is a straight-line pipeline: parse one CLI flag, print a banner,
then interleave seven memory-commit checkpoints with mmap / init-write /
mprotect / fork fan-out / wait reap / munmap.  We model an execution as a
trace of events (stdout lines, stderr lines, and system calls), driven by an
oracle `OS` that decides the outcome of each fallible operation and supplies
the contents of `/proc/meminfo` at each of the sequential `fopen` calls.

Machine-level conventions taken from the source and its target (Linux):
`sizeof(int) = 4`, `PROT_READ = 1`, `PROT_WRITE = 2`, `MAP_SHARED = 1`,
`MAP_PRIVATE = 2`, `MAP_ANONYMOUS = 0x20`.  `perror(msg)` is modelled as
emitting `msg ++ ": " ++ strerror-text` on stderr, with the strerror text
supplied by the oracle.
-/

namespace OomAlloc

/-- Compile-time constant `ALLOC_MB` from the source. -/
def ALLOC_MB : Nat := 64

/-- Compile-time constant `NUM_CHLD` from the source. -/
def NUM_CHLD : Nat := 16

/-- `const size_t length = ALLOC_MB*(1024*1024);` -/
def length : Nat := ALLOC_MB * (1024 * 1024)

def PROT_READ : Nat := 1
def PROT_WRITE : Nat := 2
def MAP_SHARED : Nat := 1
def MAP_PRIVATE : Nat := 2
def MAP_ANONYMOUS : Nat := 32

/-- Number of int-sized slots written by the init loop:
`length / sizeof(*p)` with `int *p`. -/
def numSlots : Nat := length / 4

/-- Events of an execution trace: output lines and system calls. -/
inductive Ev where
  | out (s : String)
  | err (s : String)
  | openAcct (ok : Bool)
  | closeAcct
  | mmapCall (prot : Nat) (flags : Nat) (len : Nat) (ok : Bool)
  | writeRegion (slots : Nat)
  | mprotectCall (prot : Nat) (len : Nat) (ok : Bool)
  | forkCall (i : Nat) (ok : Bool)
  | waitCall (i : Nat) (ok : Bool)
  | munmapCall (len : Nat) (ok : Bool)
  deriving DecidableEq, Repr

/-- Oracle for the fallible OS interactions.  `meminfo k` is the content of
`/proc/meminfo` (as a list of newline-stripped lines) at the k-th `fopen`,
with `none` meaning the open fails.  `errstr` is the `strerror(errno)` text
that `perror` would append. -/
structure OS where
  errstr : String
  meminfo : Nat → Option (List String)
  mmapOk : Bool
  mprotectOk : Bool
  forkOk : Nat → Bool
  waitOk : Nat → Bool
  munmapOk : Bool

/-- `const char *memstr = "Committed_AS:";` -/
def memstr : String := "Committed_AS:"

/-- `strncmp(buf, pre, strlen(pre)) == 0`: the line starts with the key. -/
def startsWithStr (s p : String) : Bool := p.data.isPrefixOf s.data

/-- The line printed for a matching meminfo line: `"%s    (%s)\n"` applied to
the newline-stripped line and the checkpoint label. -/
def decorate (l msg : String) : String := l ++ "    (" ++ msg ++ ")"

/-- The `while (fgets(...)) if (strncmp(...) == 0) fprintf(...)` loop of
`print_mem_commit`, over the list of lines of the accounting source. -/
def pmcLoop (msg : String) : List String → List Ev
  | [] => []
  | l :: rest =>
      (if startsWithStr l memstr then [Ev.out (decorate l msg)] else []) ++
        pmcLoop msg rest

/-- `print_mem_commit(msg)` at the k-th sequential open of the accounting
source.  `Except.error` carries the events of a fatal `handle_error` exit
(exit status `EXIT_FAILURE`); `Except.ok` the events of a normal return. -/
def print_mem_commit (os : OS) (k : Nat) (msg : String) :
    Except (List Ev) (List Ev) :=
  match os.meminfo k with
  | none => Except.error [Ev.openAcct false, Ev.err ("file open: " ++ os.errstr)]
  | some lines =>
      Except.ok ([Ev.openAcct true] ++ pmcLoop msg lines ++ [Ev.closeAcct])

/-- The fork fan-out loop `for (i = 0; i < n; i++) { ... fork() ... }`:
children are created for `i = 0, 1, ...`; the first failing `fork` triggers
`handle_error("fork")`. -/
def forkLoop (os : OS) : Nat → Except (List Ev) (List Ev)
  | 0 => Except.ok []
  | n + 1 =>
      match forkLoop os n with
      | Except.error e => Except.error e
      | Except.ok e =>
          if os.forkOk n then Except.ok (e ++ [Ev.forkCall n true])
          else Except.error (e ++ [Ev.forkCall n false,
                                   Ev.err ("fork: " ++ os.errstr)])

/-- The reap loop `for (i = 0; i < n; i++) { if (wait(&wstatus) == -1) ... }`:
the first failing `wait` triggers `handle_error("wait")`. -/
def waitLoop (os : OS) : Nat → Except (List Ev) (List Ev)
  | 0 => Except.ok []
  | n + 1 =>
      match waitLoop os n with
      | Except.error e => Except.error e
      | Except.ok e =>
          if os.waitOk n then Except.ok (e ++ [Ev.waitCall n true])
          else Except.error (e ++ [Ev.waitCall n false,
                                   Ev.err ("wait: " ++ os.errstr)])

/-- The two banner lines printed after a successful argument parse. -/
def bannerLines (shared : Bool) : List Ev :=
  [Ev.out "Test dnsmasq OOM: memory allocation and forking",
   Ev.out ("(allocate " ++ toString ALLOC_MB ++ " MB " ++
           (if shared then "shared" else "private") ++
           " anonymous, fork " ++ toString NUM_CHLD ++ " processes)")]

/-- The body of `main` after the mode has been parsed (`shared` is the value
of the C variable `shared`).  Returns the trace of a fatal exit
(`Except.error`, exit status 1) or of a full run (`Except.ok`, status 0). -/
def mainBody (os : OS) (shared : Bool) : Except (List Ev) (List Ev) :=
  match print_mem_commit os 0 "initial state" with
  | Except.error e => Except.error (bannerLines shared ++ e)
  | Except.ok e0 =>
    let t0 := bannerLines shared ++ e0
    let flags := MAP_ANONYMOUS ||| (if shared then MAP_SHARED else MAP_PRIVATE)
    if os.mmapOk then
      let t1 := t0 ++ [Ev.mmapCall (PROT_READ ||| PROT_WRITE) flags length true]
      match print_mem_commit os 1 "parent mem allocated" with
      | Except.error e => Except.error (t1 ++ e)
      | Except.ok e1 =>
        let t2 := t1 ++ e1 ++ [Ev.writeRegion numSlots]
        match print_mem_commit os 2 "parent mem initialized" with
        | Except.error e => Except.error (t2 ++ e)
        | Except.ok e2 =>
          let t3 := t2 ++ e2
          if os.mprotectOk then
            let t4 := t3 ++ [Ev.mprotectCall PROT_READ length true]
            match print_mem_commit os 3 "parent mem set-readonly" with
            | Except.error e => Except.error (t4 ++ e)
            | Except.ok e3 =>
              let t5 := t4 ++ e3
              match forkLoop os NUM_CHLD with
              | Except.error e => Except.error (t5 ++ e)
              | Except.ok ef =>
                let t6 := t5 ++ ef
                match print_mem_commit os 4 "parent forked children" with
                | Except.error e => Except.error (t6 ++ e)
                | Except.ok e4 =>
                  let t7 := t6 ++ e4
                  match waitLoop os NUM_CHLD with
                  | Except.error e => Except.error (t7 ++ e)
                  | Except.ok ew =>
                    let t8 := t7 ++ ew
                    match print_mem_commit os 5 "parent reaped children" with
                    | Except.error e => Except.error (t8 ++ e)
                    | Except.ok e5 =>
                      let t9 := t8 ++ e5 ++ [Ev.munmapCall length os.munmapOk]
                      match print_mem_commit os 6 "parent mem unmapped" with
                      | Except.error e => Except.error (t9 ++ e)
                      | Except.ok e6 => Except.ok (t9 ++ e6)
          else
            Except.error (t3 ++ [Ev.mprotectCall PROT_READ length false,
                                 Ev.err ("mprotect: " ++ os.errstr)])
    else
      Except.error (t0 ++ [Ev.mmapCall (PROT_READ ||| PROT_WRITE) flags length false,
                           Ev.err ("mmap: " ++ os.errstr)])

/-- `usage(argv)`: print the usage line to stderr, `exit(EXIT_FAILURE)`. -/
def usageRun (argv : List String) : List Ev × Nat :=
  ([Ev.err (argv.headD "" ++ " [ --shared | --private ]")], 1)

/-- Package an `Except` trace with its exit status. -/
def finishRun : Except (List Ev) (List Ev) → List Ev × Nat
  | Except.error e => (e, 1)
  | Except.ok e => (e, 0)

/-- The whole program: `argv` includes the program name (`argc = argv.length`).
Returns the event trace and the exit status. -/
def run (os : OS) (argv : List String) : List Ev × Nat :=
  if argv.length ≠ 2 then usageRun argv
  else if argv.getD 1 "" = "--shared" then finishRun (mainBody os true)
  else if argv.getD 1 "" = "--private" then finishRun (mainBody os false)
  else usageRun argv

/-! ## Memory model of the initialization loop

`for (p = addr, i = 0; i < (length / sizeof(*p)); p++, i++) *p = i;`
writes value `i` into the i-th int-sized slot, for `i = 0, 1, ...` in
increasing address order.  Memory is a function from slot index to value. -/

/-- State of the region after the first `n` iterations of the init loop:
iteration `i` performs `*p = i` at slot `i`, so slot `n - 1` is written
last. -/
def initLoop (mem : Nat → Int) : Nat → (Nat → Int)
  | 0 => mem
  | n + 1 => Function.update (initLoop mem n) n (n : Int)

/-- Reading back the first `n` slots in increasing address order. -/
def readback (mem : Nat → Int) (n : Nat) : List Int :=
  (List.range n).map mem

/-! ## Child process model

The entire body of a forked child is `sleep(3); exit(EXIT_SUCCESS);`. -/

/-- Actions a child process could take (writing the inherited region and
allocating memory are included so that their absence can be stated). -/
inductive ChildAct where
  | sleep (secs : Nat)
  | exitWith (code : Nat)
  | storeRegion (idx : Nat) (v : Int)
  | allocRegion (len : Nat)
  deriving DecidableEq, Repr

/-- The action sequence of every forked child. -/
def childBody : List ChildAct := [ChildAct.sleep 3, ChildAct.exitWith 0]

/-! ## Trace projections -/

/-- The stdout lines of a trace. -/
def outsOf : List Ev → List String
  | [] => []
  | Ev.out s :: t => s :: outsOf t
  | _ :: t => outsOf t

/-- The stderr lines of a trace. -/
def errsOf : List Ev → List String
  | [] => []
  | Ev.err s :: t => s :: errsOf t
  | _ :: t => errsOf t

def isFork : Ev → Bool
  | Ev.forkCall _ _ => true
  | _ => false

def isWait : Ev → Bool
  | Ev.waitCall _ _ => true
  | _ => false

def isMunmap : Ev → Bool
  | Ev.munmapCall _ _ => true
  | _ => false

def isWrite : Ev → Bool
  | Ev.writeRegion _ => true
  | _ => false

def isMprot : Ev → Bool
  | Ev.mprotectCall _ _ _ => true
  | _ => false

def isMmap : Ev → Bool
  | Ev.mmapCall _ _ _ _ => true
  | _ => false

/-- Fork events of a fully successful fan-out of `n` children. -/
def forkOkEvs (n : Nat) : List Ev :=
  (List.range n).map fun i => Ev.forkCall i true

/-- Wait events of a fully successful reap of `n` children. -/
def waitOkEvs (n : Nat) : List Ev :=
  (List.range n).map fun i => Ev.waitCall i true

/-- A sample `/proc/meminfo` content with exactly one `Committed_AS:` line. -/
def sampleMeminfo : List String :=
  ["MemTotal:        8024640 kB",
   "MemFree:         5312288 kB",
   "Committed_AS:     569992 kB",
   "VmallocTotal:   34359738367 kB"]

/-- An oracle on which every operation succeeds and every open of the
accounting source yields `sampleMeminfo`. -/
def osAllOk : OS where
  errstr := "Cannot allocate memory"
  meminfo := fun _ => some sampleMeminfo
  mmapOk := true
  mprotectOk := true
  forkOk := fun _ => true
  waitOk := fun _ => true
  munmapOk := true

/-! ## Helper lemmas -/

/-- The reporter loop prints exactly the matching lines, decorated, in
source order. -/
theorem pmcLoop_eq (msg : String) (lines : List String) :
    pmcLoop msg lines =
      (lines.filter fun l => startsWithStr l memstr).map
        fun l => Ev.out (decorate l msg) := by
  induction lines with
  | nil => rfl
  | cons l rest ih =>
      cases h : startsWithStr l memstr <;>
        simp [pmcLoop, List.filter_cons, h, ih]

theorem forkOkEvs_succ (n : Nat) :
    forkOkEvs (n + 1) = forkOkEvs n ++ [Ev.forkCall n true] := by
  simp [forkOkEvs, List.range_succ]

theorem waitOkEvs_succ (n : Nat) :
    waitOkEvs (n + 1) = waitOkEvs n ++ [Ev.waitCall n true] := by
  simp [waitOkEvs, List.range_succ]

theorem forkLoop_ok (os : OS) (n : Nat) (h : ∀ i, i < n → os.forkOk i = true) :
    forkLoop os n = Except.ok (forkOkEvs n) := by
  induction n with
  | zero => rfl
  | succ n ih =>
      have ih' := ih fun i hi => h i (by omega)
      simp [forkLoop, ih', h n (by omega), forkOkEvs_succ]

theorem waitLoop_ok (os : OS) (n : Nat) (h : ∀ i, i < n → os.waitOk i = true) :
    waitLoop os n = Except.ok (waitOkEvs n) := by
  induction n with
  | zero => rfl
  | succ n ih =>
      have ih' := ih fun i hi => h i (by omega)
      simp [waitLoop, ih', h n (by omega), waitOkEvs_succ]

theorem forkLoop_err (os : OS) (n i : Nat) (hin : i < n)
    (hi : os.forkOk i = false) (hprev : ∀ j, j < i → os.forkOk j = true) :
    forkLoop os n =
      Except.error (forkOkEvs i ++
        [Ev.forkCall i false, Ev.err ("fork: " ++ os.errstr)]) := by
  induction n with
  | zero => omega
  | succ n ih =>
      by_cases h : i < n
      · simp [forkLoop, ih h]
      · have hni : i = n := by omega
        subst hni
        simp [forkLoop, forkLoop_ok os i hprev, hi]

theorem waitLoop_err (os : OS) (n i : Nat) (hin : i < n)
    (hi : os.waitOk i = false) (hprev : ∀ j, j < i → os.waitOk j = true) :
    waitLoop os n =
      Except.error (waitOkEvs i ++
        [Ev.waitCall i false, Ev.err ("wait: " ++ os.errstr)]) := by
  induction n with
  | zero => omega
  | succ n ih =>
      by_cases h : i < n
      · simp [waitLoop, ih h]
      · have hni : i = n := by omega
        subst hni
        simp [waitLoop, waitLoop_ok os i hprev, hi]

/-- The full event trace of a completely successful run. -/
def successTrace (os : OS) (shared : Bool) (c : Nat → List String) : List Ev :=
  bannerLines shared ++
  ([Ev.openAcct true] ++ pmcLoop "initial state" (c 0) ++ [Ev.closeAcct]) ++
  [Ev.mmapCall (PROT_READ ||| PROT_WRITE)
     (MAP_ANONYMOUS ||| (if shared then MAP_SHARED else MAP_PRIVATE))
     length true] ++
  ([Ev.openAcct true] ++ pmcLoop "parent mem allocated" (c 1) ++ [Ev.closeAcct]) ++
  [Ev.writeRegion numSlots] ++
  ([Ev.openAcct true] ++ pmcLoop "parent mem initialized" (c 2) ++ [Ev.closeAcct]) ++
  [Ev.mprotectCall PROT_READ length true] ++
  ([Ev.openAcct true] ++ pmcLoop "parent mem set-readonly" (c 3) ++ [Ev.closeAcct]) ++
  forkOkEvs NUM_CHLD ++
  ([Ev.openAcct true] ++ pmcLoop "parent forked children" (c 4) ++ [Ev.closeAcct]) ++
  waitOkEvs NUM_CHLD ++
  ([Ev.openAcct true] ++ pmcLoop "parent reaped children" (c 5) ++ [Ev.closeAcct]) ++
  [Ev.munmapCall length os.munmapOk] ++
  ([Ev.openAcct true] ++ pmcLoop "parent mem unmapped" (c 6) ++ [Ev.closeAcct])

/-- Closed form of a fully successful run (the final `munmap` outcome
`os.munmapOk` is unconstrained: the program never checks it). -/
theorem run_success (os : OS) (c : Nat → List String) (p : String) (shared : Bool)
    (hmem : ∀ k, os.meminfo k = some (c k))
    (hmm : os.mmapOk = true) (hmp : os.mprotectOk = true)
    (hfk : ∀ i, i < NUM_CHLD → os.forkOk i = true)
    (hwt : ∀ i, i < NUM_CHLD → os.waitOk i = true) :
    run os [p, if shared then "--shared" else "--private"] =
      (successTrace os shared c, 0) := by
  have hf := forkLoop_ok os NUM_CHLD hfk
  have hw := waitLoop_ok os NUM_CHLD hwt
  cases shared <;>
    simp [run, mainBody, print_mem_commit, hmem, hmm, hmp, hf, hw,
          finishRun, successTrace, List.append_assoc]

/-- `run_success` specialized to argument `--shared`. -/
theorem run_success_shared (os : OS) (c : Nat → List String) (p : String)
    (hmem : ∀ k, os.meminfo k = some (c k))
    (hmm : os.mmapOk = true) (hmp : os.mprotectOk = true)
    (hfk : ∀ i, i < NUM_CHLD → os.forkOk i = true)
    (hwt : ∀ i, i < NUM_CHLD → os.waitOk i = true) :
    run os [p, "--shared"] = (successTrace os true c, 0) := by
  simpa using run_success os c p true hmem hmm hmp hfk hwt

/-- `run_success` specialized to argument `--private`. -/
theorem run_success_private (os : OS) (c : Nat → List String) (p : String)
    (hmem : ∀ k, os.meminfo k = some (c k))
    (hmm : os.mmapOk = true) (hmp : os.mprotectOk = true)
    (hfk : ∀ i, i < NUM_CHLD → os.forkOk i = true)
    (hwt : ∀ i, i < NUM_CHLD → os.waitOk i = true) :
    run os [p, "--private"] = (successTrace os false c, 0) := by
  simpa using run_success os c p false hmem hmm hmp hfk hwt

/-! ## Trace projection lemmas -/

theorem outsOf_append (a b : List Ev) :
    outsOf (a ++ b) = outsOf a ++ outsOf b := by
  induction a with
  | nil => rfl
  | cons e t ih => cases e <;> simp [outsOf, ih]

theorem errsOf_append (a b : List Ev) :
    errsOf (a ++ b) = errsOf a ++ errsOf b := by
  induction a with
  | nil => rfl
  | cons e t ih => cases e <;> simp [errsOf, ih]

theorem outsOf_map_out {α : Type} (f : α → String) (l : List α) :
    outsOf (l.map fun x => Ev.out (f x)) = l.map f := by
  induction l with
  | nil => rfl
  | cons a t ih => simp [outsOf, ih]

theorem outsOf_pmcLoop (msg : String) (lines : List String) :
    outsOf (pmcLoop msg lines) =
      (lines.filter fun l => startsWithStr l memstr).map fun l => decorate l msg := by
  rw [pmcLoop_eq]
  exact outsOf_map_out _ _

theorem errsOf_pmcLoop (msg : String) (lines : List String) :
    errsOf (pmcLoop msg lines) = [] := by
  rw [pmcLoop_eq]
  generalize (lines.filter fun l => startsWithStr l memstr) = ms
  induction ms with
  | nil => rfl
  | cons m t ih => simp [errsOf, ih]

theorem outsOf_forkOkEvs (n : Nat) : outsOf (forkOkEvs n) = [] := by
  unfold forkOkEvs
  generalize List.range n = l
  induction l with
  | nil => rfl
  | cons a t ih => simp [outsOf, ih]

theorem outsOf_waitOkEvs (n : Nat) : outsOf (waitOkEvs n) = [] := by
  unfold waitOkEvs
  generalize List.range n = l
  induction l with
  | nil => rfl
  | cons a t ih => simp [outsOf, ih]

theorem errsOf_forkOkEvs (n : Nat) : errsOf (forkOkEvs n) = [] := by
  unfold forkOkEvs
  generalize List.range n = l
  induction l with
  | nil => rfl
  | cons a t ih => simp [errsOf, ih]

theorem errsOf_waitOkEvs (n : Nat) : errsOf (waitOkEvs n) = [] := by
  unfold waitOkEvs
  generalize List.range n = l
  induction l with
  | nil => rfl
  | cons a t ih => simp [errsOf, ih]

theorem filter_pmcLoop_eq_nil (p : Ev → Bool) (hp : ∀ s, p (Ev.out s) = false)
    (msg : String) (lines : List String) :
    (pmcLoop msg lines).filter p = [] := by
  rw [pmcLoop_eq]
  generalize (lines.filter fun l => startsWithStr l memstr) = ms
  induction ms with
  | nil => rfl
  | cons m t ih => simp [List.filter_cons, hp, ih]

theorem filter_map_eq_nil {α : Type} (p : Ev → Bool) (f : α → Ev)
    (hf : ∀ x, p (f x) = false) (l : List α) :
    (l.map f).filter p = [] := by
  induction l with
  | nil => rfl
  | cons a t ih => simp [List.filter_cons, hf, ih]

theorem filter_map_eq_self {α : Type} (p : Ev → Bool) (f : α → Ev)
    (hf : ∀ x, p (f x) = true) (l : List α) :
    (l.map f).filter p = l.map f := by
  induction l with
  | nil => rfl
  | cons a t ih => simp [List.filter_cons, hf, ih]

/-! ## Init-loop lemmas -/

theorem initLoop_get (mem : Nat → Int) (n i : Nat) (h : i < n) :
    initLoop mem n i = Int.ofNat i := by
  induction n with
  | zero => omega
  | succ n ih =>
      by_cases hi : i = n
      · subst hi
        simp [initLoop]
      · have hlt : i < n := by omega
        simp only [initLoop]
        rw [Function.update_noteq hi, ih hlt]

theorem readback_initLoop (mem : Nat → Int) (n : Nat) :
    readback (initLoop mem n) n = (List.range n).map Int.ofNat := by
  unfold readback
  exact List.map_congr_left fun i hi =>
    initLoop_get mem n i (List.mem_range.mp hi)

/-- A meminfo content with no `Committed_AS:` line. -/
def noMetricMeminfo : List String :=
  ["MemTotal:        8024640 kB", "MemFree:         5312288 kB"]

/-- Oracle whose accounting source lacks the metric line. -/
def osNoMetric : OS := { osAllOk with meminfo := fun _ => some noMetricMeminfo }

/-! ## Claims -/

/-- Claim C2: the initialization step writes the strictly increasing sequence
0, 1, 2, ... into every int-sized slot of the region, one distinct value per
slot, in increasing address order, covering the entire region exactly once
(numSlots int-sized slots make up exactly `length` bytes); reading the region
back immediately after initialization yields exactly this sequence. -/
theorem init_writes_increasing_sequence (mem : Nat → Int) :
    (∀ i, i < numSlots → initLoop mem numSlots i = Int.ofNat i) ∧
    readback (initLoop mem numSlots) numSlots =
      (List.range numSlots).map Int.ofNat ∧
    List.Pairwise (· < ·) (readback (initLoop mem numSlots) numSlots) ∧
    numSlots * 4 = length := by
  have h2 := readback_initLoop mem numSlots
  refine ⟨fun i h => initLoop_get mem numSlots i h, h2, ?_, by decide⟩
  rw [h2]
  exact (List.pairwise_lt_range numSlots).map Int.ofNat
    fun a b hab => Int.ofNat_lt.mpr hab

/-- Witness for C2 at concrete inputs. -/
theorem init_writes_increasing_sequence_witness :
    5 < numSlots ∧ initLoop (fun _ => (0 : Int)) numSlots 5 = Int.ofNat 5 :=
  ⟨by decide, (init_writes_increasing_sequence fun _ => (0 : Int)).1 5 (by decide)⟩

/-- Claim C3: any invocation whose argument list is not exactly one argument
equal to "--shared" or "--private" (wrong arity or unrecognized token) prints
the one-line usage message to stderr and exits non-zero, with no stdout
output at all (hence no memory-commit lines). -/
theorem usage_error_on_bad_args (os : OS) (argv : List String)
    (h : argv.length ≠ 2 ∨
      (argv.getD 1 "" ≠ "--shared" ∧ argv.getD 1 "" ≠ "--private")) :
    run os argv =
      ([Ev.err (argv.headD "" ++ " [ --shared | --private ]")], 1) ∧
    outsOf (run os argv).1 = [] := by
  have hr : run os argv =
      ([Ev.err (argv.headD "" ++ " [ --shared | --private ]")], 1) := by
    rcases h with h | ⟨h1, h2⟩
    · simp [run, h, usageRun]
    · by_cases hl : argv.length = 2
      · match argv, hl with
        | [a, b], _ =>
          simp only [List.getD, List.get?, Option.getD] at h1 h2
          simp [run, usageRun, h1, h2]
      · simp [run, hl, usageRun]
  refine ⟨hr, ?_⟩
  rw [hr]
  rfl

/-- Witness for C3: invoking with no argument at all. -/
theorem usage_error_on_bad_args_witness :
    run osAllOk ["./oom_alloc"] =
      ([Ev.err (["./oom_alloc"].headD "" ++ " [ --shared | --private ]")], 1) ∧
    outsOf (run osAllOk ["./oom_alloc"]).1 = [] :=
  usage_error_on_bad_args osAllOk ["./oom_alloc"] (Or.inl (by decide))

/-- Claim C7: for every checkpoint label and content of the accounting
source, the reporter scans line by line and prints, verbatim and decorated
with the label, exactly the lines matching the metric key; in particular,
when the source contains exactly one metric line, exactly one output line is
printed, namely that line followed by the parenthesized label. -/
theorem reporter_prints_matching_lines (os : OS) (k : Nat) (msg : String)
    (lines : List String) (hm : os.meminfo k = some lines) :
    print_mem_commit os k msg =
      Except.ok ([Ev.openAcct true] ++
        ((lines.filter fun l => startsWithStr l memstr).map
          fun l => Ev.out (decorate l msg)) ++ [Ev.closeAcct]) ∧
    ∀ m, lines.filter (fun l => startsWithStr l memstr) = [m] →
      pmcLoop msg lines = [Ev.out (m ++ "    (" ++ msg ++ ")")] := by
  constructor
  · simp [print_mem_commit, hm, pmcLoop_eq]
  · intro m hm1
    rw [pmcLoop_eq, hm1]
    rfl

/-- Witness for C7 on the sample meminfo content. -/
theorem reporter_prints_matching_lines_witness :
    (print_mem_commit osAllOk 0 "initial state" =
      Except.ok ([Ev.openAcct true] ++
        ((sampleMeminfo.filter fun l => startsWithStr l memstr).map
          fun l => Ev.out (decorate l "initial state")) ++ [Ev.closeAcct])) ∧
    pmcLoop "initial state" sampleMeminfo =
      [Ev.out ("Committed_AS:     569992 kB" ++ "    (" ++ "initial state" ++ ")")] :=
  ⟨(reporter_prints_matching_lines osAllOk 0 "initial state" sampleMeminfo rfl).1,
   (reporter_prints_matching_lines osAllOk 0 "initial state" sampleMeminfo rfl).2
     "Committed_AS:     569992 kB" (by decide)⟩

/-- Claim C8: if the accounting source opens but contains no line matching
the metric key, the reporter call prints nothing and returns normally; and
whenever the source was opened, it is closed before the call returns (every
normal return ends with the close of the source, with only stdout lines in
between). -/
theorem reporter_missing_metric_silent_and_closes (os : OS) (k : Nat)
    (msg : String) (lines : List String) (hm : os.meminfo k = some lines) :
    ((∀ l ∈ lines, startsWithStr l memstr = false) →
      print_mem_commit os k msg = Except.ok [Ev.openAcct true, Ev.closeAcct]) ∧
    ∃ t, print_mem_commit os k msg =
        Except.ok ([Ev.openAcct true] ++ t ++ [Ev.closeAcct]) ∧
      ∀ e ∈ t, ∃ s, e = Ev.out s := by
  constructor
  · intro h
    have hnil : lines.filter (fun l => startsWithStr l memstr) = [] := by
      rw [List.filter_eq_nil_iff]
      intro a ha
      simp [h a ha]
    simp [print_mem_commit, hm, pmcLoop_eq, hnil]
  · refine ⟨pmcLoop msg lines, by simp [print_mem_commit, hm], ?_⟩
    intro e he
    rw [pmcLoop_eq] at he
    obtain ⟨l, _, rfl⟩ := List.mem_map.mp he
    exact ⟨decorate l msg, rfl⟩

/-- Witness for C8 on a metric-free meminfo content. -/
theorem reporter_missing_metric_witness :
    print_mem_commit osNoMetric 0 "initial state" =
      Except.ok [Ev.openAcct true, Ev.closeAcct] :=
  (reporter_missing_metric_silent_and_closes osNoMetric 0 "initial state"
    noMetricMeminfo rfl).1 (by decide)

/-- The stdout lines of a successful run: the two banner lines followed by
the decorated matching lines of each of the seven checkpoints, in order. -/
theorem outsOf_successTrace (os : OS) (shared : Bool) (c : Nat → List String) :
    outsOf (successTrace os shared c) =
      "Test dnsmasq OOM: memory allocation and forking" ::
      ("(allocate " ++ toString ALLOC_MB ++ " MB " ++
        (if shared then "shared" else "private") ++
        " anonymous, fork " ++ toString NUM_CHLD ++ " processes)") ::
      (((c 0).filter fun l => startsWithStr l memstr).map (fun l => decorate l "initial state") ++
       ((c 1).filter fun l => startsWithStr l memstr).map (fun l => decorate l "parent mem allocated") ++
       ((c 2).filter fun l => startsWithStr l memstr).map (fun l => decorate l "parent mem initialized") ++
       ((c 3).filter fun l => startsWithStr l memstr).map (fun l => decorate l "parent mem set-readonly") ++
       ((c 4).filter fun l => startsWithStr l memstr).map (fun l => decorate l "parent forked children") ++
       ((c 5).filter fun l => startsWithStr l memstr).map (fun l => decorate l "parent reaped children") ++
       ((c 6).filter fun l => startsWithStr l memstr).map (fun l => decorate l "parent mem unmapped")) := by
  simp [successTrace, outsOf_append, outsOf_pmcLoop, outsOf_forkOkEvs,
        outsOf_waitOkEvs, bannerLines, outsOf, List.append_assoc]

/-- A successful run writes nothing to stderr. -/
theorem errsOf_successTrace (os : OS) (shared : Bool) (c : Nat → List String) :
    errsOf (successTrace os shared c) = [] := by
  simp [successTrace, errsOf_append, errsOf_pmcLoop, errsOf_forkOkEvs,
        errsOf_waitOkEvs, bannerLines, errsOf]

/-- Counterexample to claim C1 as stated: on an oracle where every operation
succeeds and the metric line is present (exactly once) at every checkpoint,
the `--shared` run prints 7 memory-commit lines after the 2-line banner, not
8: total stdout is 9 lines, not 2 + 8. -/
theorem seven_not_eight_commit_lines :
    (sampleMeminfo.filter fun l => startsWithStr l memstr).length = 1 ∧
    (run osAllOk ["./oom_alloc", "--shared"]).2 = 0 ∧
    (outsOf (run osAllOk ["./oom_alloc", "--shared"]).1).length = 9 ∧
    ¬ (outsOf (run osAllOk ["./oom_alloc", "--shared"]).1).length = 2 + 8 := by
  decide

/-- Claim C1 (amended): for an invocation with argument exactly `--shared`
or exactly `--private`, with every operation succeeding and the metric line
present exactly once in the accounting source at every checkpoint, the
program prints exactly one two-line banner (mentioning the 64 MB size, the
correct mode word, and the 16-child count) followed by exactly SEVEN
memory-commit checkpoint lines (one per checkpoint at which the metric is
present), writes nothing to stderr, and exits with status 0. -/
theorem banner_and_one_commit_line_per_checkpoint (os : OS)
    (c : Nat → List String) (p arg : String)
    (harg : arg = "--shared" ∨ arg = "--private")
    (hmem : ∀ k, os.meminfo k = some (c k))
    (hmm : os.mmapOk = true) (hmp : os.mprotectOk = true)
    (hfk : ∀ i, i < NUM_CHLD → os.forkOk i = true)
    (hwt : ∀ i, i < NUM_CHLD → os.waitOk i = true)
    (hone : ∀ k, k < 7 →
      ((c k).filter fun l => startsWithStr l memstr).length = 1) :
    (outsOf (run os [p, arg]).1).take 2 =
      ["Test dnsmasq OOM: memory allocation and forking",
       if arg = "--shared"
         then "(allocate 64 MB shared anonymous, fork 16 processes)"
         else "(allocate 64 MB private anonymous, fork 16 processes)"] ∧
    (outsOf (run os [p, arg]).1).length = 2 + 7 ∧
    (run os [p, arg]).2 = 0 ∧
    errsOf (run os [p, arg]).1 = [] := by
  have h0 := hone 0 (by norm_num)
  have h1 := hone 1 (by norm_num)
  have h2 := hone 2 (by norm_num)
  have h3 := hone 3 (by norm_num)
  have h4 := hone 4 (by norm_num)
  have h5 := hone 5 (by norm_num)
  have h6 := hone 6 (by norm_num)
  rcases harg with rfl | rfl
  · have hrun := run_success_shared os c p hmem hmm hmp hfk hwt
    rw [hrun]
    refine ⟨?_, ?_, rfl, errsOf_successTrace os true c⟩
    · rw [outsOf_successTrace]
      simp only [List.take]
      decide
    · rw [outsOf_successTrace]
      simp [List.length_append, h0, h1, h2, h3, h4, h5, h6]
  · have hrun := run_success_private os c p hmem hmm hmp hfk hwt
    rw [hrun]
    refine ⟨?_, ?_, rfl, errsOf_successTrace os false c⟩
    · rw [outsOf_successTrace]
      simp only [List.take]
      decide
    · rw [outsOf_successTrace]
      simp [List.length_append, h0, h1, h2, h3, h4, h5, h6]

/-- Witness for the amended C1 at concrete inputs. -/
theorem banner_and_one_commit_line_witness :
    (outsOf (run osAllOk ["./oom_alloc", "--shared"]).1).take 2 =
      ["Test dnsmasq OOM: memory allocation and forking",
       if "--shared" = "--shared"
         then "(allocate 64 MB shared anonymous, fork 16 processes)"
         else "(allocate 64 MB private anonymous, fork 16 processes)"] ∧
    (outsOf (run osAllOk ["./oom_alloc", "--shared"]).1).length = 2 + 7 ∧
    (run osAllOk ["./oom_alloc", "--shared"]).2 = 0 ∧
    errsOf (run osAllOk ["./oom_alloc", "--shared"]).1 = [] :=
  banner_and_one_commit_line_per_checkpoint osAllOk (fun _ => sampleMeminfo)
    "./oom_alloc" "--shared" (Or.inl rfl) (fun _ => rfl) rfl rfl
    (fun _ _ => rfl) (fun _ _ => rfl)
    (fun _ _ => by
      show (sampleMeminfo.filter fun l => startsWithStr l memstr).length = 1
      decide)

/-- Combined classifier for fork, wait and munmap system calls. -/
def isFWM (e : Ev) : Bool := isFork e || isWait e || isMunmap e

/-- Combined classifier for region writes and protection changes. -/
def isWP (e : Ev) : Bool := isWrite e || isMprot e

theorem filter_mmap_successTrace (os : OS) (shared : Bool) (c : Nat → List String) :
    (successTrace os shared c).filter isMmap =
      [Ev.mmapCall (PROT_READ ||| PROT_WRITE)
        (MAP_ANONYMOUS ||| (if shared then MAP_SHARED else MAP_PRIVATE))
        length true] := by
  have h1 : ∀ msg lines, (pmcLoop msg lines).filter isMmap = [] :=
    filter_pmcLoop_eq_nil isMmap fun s => rfl
  have h2 : (forkOkEvs NUM_CHLD).filter isMmap = [] :=
    filter_map_eq_nil _ _ (fun i => rfl) _
  have h3 : (waitOkEvs NUM_CHLD).filter isMmap = [] :=
    filter_map_eq_nil _ _ (fun i => rfl) _
  simp [successTrace, List.filter_append, h1, h2, h3, bannerLines,
        List.filter_cons, isMmap]

theorem filter_fwm_successTrace (os : OS) (shared : Bool) (c : Nat → List String) :
    (successTrace os shared c).filter isFWM =
      forkOkEvs NUM_CHLD ++ waitOkEvs NUM_CHLD ++
      [Ev.munmapCall length os.munmapOk] := by
  have h1 : ∀ msg lines, (pmcLoop msg lines).filter isFWM = [] :=
    filter_pmcLoop_eq_nil isFWM fun s => rfl
  have h2 : (forkOkEvs NUM_CHLD).filter isFWM = forkOkEvs NUM_CHLD :=
    filter_map_eq_self _ _ (fun i => rfl) _
  have h3 : (waitOkEvs NUM_CHLD).filter isFWM = waitOkEvs NUM_CHLD :=
    filter_map_eq_self _ _ (fun i => rfl) _
  simp [successTrace, List.filter_append, h1, h2, h3, bannerLines,
        List.filter_cons, isFWM, isFork, isWait, isMunmap, List.append_assoc]

theorem filter_wp_successTrace (os : OS) (shared : Bool) (c : Nat → List String) :
    (successTrace os shared c).filter isWP =
      [Ev.writeRegion numSlots, Ev.mprotectCall PROT_READ length true] := by
  have h1 : ∀ msg lines, (pmcLoop msg lines).filter isWP = [] :=
    filter_pmcLoop_eq_nil isWP fun s => rfl
  have h2 : (forkOkEvs NUM_CHLD).filter isWP = [] :=
    filter_map_eq_nil _ _ (fun i => rfl) _
  have h3 : (waitOkEvs NUM_CHLD).filter isWP = [] :=
    filter_map_eq_nil _ _ (fun i => rfl) _
  simp [successTrace, List.filter_append, h1, h2, h3, bannerLines,
        List.filter_cons, isWP, isWrite, isMprot]

/-- Claim C4: the allocation step issues exactly one mapping request, for an
anonymous, readable and writable region of the fixed 64 MiB size, whose
sharing flag is MAP_SHARED for `--shared` and MAP_PRIVATE for `--private`,
as determined once by the parsed mode. -/
theorem mmap_anonymous_rw_mode_flag (os : OS) (c : Nat → List String)
    (p arg : String)
    (harg : arg = "--shared" ∨ arg = "--private")
    (hmem : ∀ k, os.meminfo k = some (c k))
    (hmm : os.mmapOk = true) (hmp : os.mprotectOk = true)
    (hfk : ∀ i, i < NUM_CHLD → os.forkOk i = true)
    (hwt : ∀ i, i < NUM_CHLD → os.waitOk i = true) :
    (run os [p, arg]).1.filter isMmap =
      [Ev.mmapCall (PROT_READ ||| PROT_WRITE)
        (MAP_ANONYMOUS ||| (if arg = "--shared" then MAP_SHARED else MAP_PRIVATE))
        length true] ∧
    length = 64 * 1024 * 1024 ∧
    PROT_READ ||| PROT_WRITE = 3 := by
  rcases harg with rfl | rfl
  · have hrun := run_success_shared os c p hmem hmm hmp hfk hwt
    rw [hrun]
    refine ⟨?_, by decide, by decide⟩
    simpa using filter_mmap_successTrace os true c
  · have hrun := run_success_private os c p hmem hmm hmp hfk hwt
    rw [hrun]
    refine ⟨?_, by decide, by decide⟩
    simpa using filter_mmap_successTrace os false c

/-- Witness for C4 at concrete inputs. -/
theorem mmap_anonymous_rw_mode_flag_witness :
    (run osAllOk ["./oom_alloc", "--private"]).1.filter isMmap =
      [Ev.mmapCall (PROT_READ ||| PROT_WRITE)
        (MAP_ANONYMOUS |||
          (if "--private" = "--shared" then MAP_SHARED else MAP_PRIVATE))
        length true] ∧
    length = 64 * 1024 * 1024 ∧
    PROT_READ ||| PROT_WRITE = 3 :=
  mmap_anonymous_rw_mode_flag osAllOk (fun _ => sampleMeminfo) "./oom_alloc"
    "--private" (Or.inr rfl) (fun _ => rfl) rfl rfl
    (fun _ _ => rfl) (fun _ _ => rfl)

/-- Claim C5: in every successful execution the fork/wait/munmap events of
the trace are exactly the 16 fork events (one per child, all succeeding),
followed by the 16 wait events, followed by the single munmap event: all
child creations complete before any reap, exactly NUM_CHLD = 16 terminations
are reaped, and the region is unmapped exactly once, only after all children
have been reaped. -/
theorem forks_then_reaps_then_unmap (os : OS) (c : Nat → List String)
    (p arg : String)
    (harg : arg = "--shared" ∨ arg = "--private")
    (hmem : ∀ k, os.meminfo k = some (c k))
    (hmm : os.mmapOk = true) (hmp : os.mprotectOk = true)
    (hfk : ∀ i, i < NUM_CHLD → os.forkOk i = true)
    (hwt : ∀ i, i < NUM_CHLD → os.waitOk i = true) :
    (run os [p, arg]).1.filter isFWM =
      ((List.range NUM_CHLD).map fun i => Ev.forkCall i true) ++
      ((List.range NUM_CHLD).map fun i => Ev.waitCall i true) ++
      [Ev.munmapCall length os.munmapOk] ∧
    NUM_CHLD = 16 := by
  rcases harg with rfl | rfl
  · have hrun := run_success_shared os c p hmem hmm hmp hfk hwt
    rw [hrun]
    exact ⟨filter_fwm_successTrace os true c, rfl⟩
  · have hrun := run_success_private os c p hmem hmm hmp hfk hwt
    rw [hrun]
    exact ⟨filter_fwm_successTrace os false c, rfl⟩

/-- Witness for C5 at concrete inputs. -/
theorem forks_then_reaps_then_unmap_witness :
    (run osAllOk ["./oom_alloc", "--shared"]).1.filter isFWM =
      ((List.range NUM_CHLD).map fun i => Ev.forkCall i true) ++
      ((List.range NUM_CHLD).map fun i => Ev.waitCall i true) ++
      [Ev.munmapCall length osAllOk.munmapOk] ∧
    NUM_CHLD = 16 :=
  forks_then_reaps_then_unmap osAllOk (fun _ => sampleMeminfo) "./oom_alloc"
    "--shared" (Or.inl rfl) (fun _ => rfl) rfl rfl
    (fun _ _ => rfl) (fun _ _ => rfl)

/-- Claim C9: the only region write and the only protection change in any
successful run are the single initialization write followed by the single
downgrade to PROT_READ — the write precedes the protection change and no
write ever follows it; and a child process only sleeps and exits: it never
writes to the inherited region nor allocates memory of its own. -/
theorem no_write_after_readonly (os : OS) (c : Nat → List String)
    (p arg : String)
    (harg : arg = "--shared" ∨ arg = "--private")
    (hmem : ∀ k, os.meminfo k = some (c k))
    (hmm : os.mmapOk = true) (hmp : os.mprotectOk = true)
    (hfk : ∀ i, i < NUM_CHLD → os.forkOk i = true)
    (hwt : ∀ i, i < NUM_CHLD → os.waitOk i = true) :
    (run os [p, arg]).1.filter isWP =
      [Ev.writeRegion numSlots, Ev.mprotectCall PROT_READ length true] ∧
    childBody = [ChildAct.sleep 3, ChildAct.exitWith 0] ∧
    ∀ a ∈ childBody, (∀ i v, a ≠ ChildAct.storeRegion i v) ∧
      (∀ l, a ≠ ChildAct.allocRegion l) := by
  have hchild : ∀ a ∈ childBody, (∀ i v, a ≠ ChildAct.storeRegion i v) ∧
      (∀ l, a ≠ ChildAct.allocRegion l) := by
    intro a ha
    simp only [childBody, List.mem_cons, List.not_mem_nil, or_false] at ha
    rcases ha with rfl | rfl
    · exact ⟨fun i v => nofun, fun l => nofun⟩
    · exact ⟨fun i v => nofun, fun l => nofun⟩
  rcases harg with rfl | rfl
  · have hrun := run_success_shared os c p hmem hmm hmp hfk hwt
    rw [hrun]
    exact ⟨filter_wp_successTrace os true c, rfl, hchild⟩
  · have hrun := run_success_private os c p hmem hmm hmp hfk hwt
    rw [hrun]
    exact ⟨filter_wp_successTrace os false c, rfl, hchild⟩

/-- Witness for C9 at concrete inputs. -/
theorem no_write_after_readonly_witness :
    (run osAllOk ["./oom_alloc", "--shared"]).1.filter isWP =
      [Ev.writeRegion numSlots, Ev.mprotectCall PROT_READ length true] ∧
    childBody = [ChildAct.sleep 3, ChildAct.exitWith 0] ∧
    ∀ a ∈ childBody, (∀ i v, a ≠ ChildAct.storeRegion i v) ∧
      (∀ l, a ≠ ChildAct.allocRegion l) :=
  no_write_after_readonly osAllOk (fun _ => sampleMeminfo) "./oom_alloc"
    "--shared" (Or.inl rfl) (fun _ => rfl) rfl rfl
    (fun _ _ => rfl) (fun _ _ => rfl)

/-- Oracle on which everything succeeds except the final munmap. -/
def osMunmapFail : OS := { osAllOk with munmapOk := false }

/-- Claim C10: the result of the final unmap is never checked: even when the
unmap fails, the program still prints the final memory-commit checkpoint
(the accounting source is opened and scanned after the failed munmap) and
exits with status 0. -/
theorem munmap_failure_ignored (os : OS) (c : Nat → List String) (p : String)
    (hmem : ∀ k, os.meminfo k = some (c k))
    (hmm : os.mmapOk = true) (hmp : os.mprotectOk = true)
    (hfk : ∀ i, i < NUM_CHLD → os.forkOk i = true)
    (hwt : ∀ i, i < NUM_CHLD → os.waitOk i = true)
    (hmun : os.munmapOk = false) :
    (run os [p, "--shared"]).2 = 0 ∧
    (run os [p, "--shared"]).1 =
      (bannerLines true ++
       ([Ev.openAcct true] ++ pmcLoop "initial state" (c 0) ++ [Ev.closeAcct]) ++
       [Ev.mmapCall (PROT_READ ||| PROT_WRITE) (MAP_ANONYMOUS ||| MAP_SHARED)
         length true] ++
       ([Ev.openAcct true] ++ pmcLoop "parent mem allocated" (c 1) ++ [Ev.closeAcct]) ++
       [Ev.writeRegion numSlots] ++
       ([Ev.openAcct true] ++ pmcLoop "parent mem initialized" (c 2) ++ [Ev.closeAcct]) ++
       [Ev.mprotectCall PROT_READ length true] ++
       ([Ev.openAcct true] ++ pmcLoop "parent mem set-readonly" (c 3) ++ [Ev.closeAcct]) ++
       forkOkEvs NUM_CHLD ++
       ([Ev.openAcct true] ++ pmcLoop "parent forked children" (c 4) ++ [Ev.closeAcct]) ++
       waitOkEvs NUM_CHLD ++
       ([Ev.openAcct true] ++ pmcLoop "parent reaped children" (c 5) ++ [Ev.closeAcct])) ++
      ([Ev.munmapCall length false, Ev.openAcct true] ++
       pmcLoop "parent mem unmapped" (c 6) ++ [Ev.closeAcct]) := by
  have hrun := run_success_shared os c p hmem hmm hmp hfk hwt
  rw [hrun]
  refine ⟨rfl, ?_⟩
  simp [successTrace, hmun, List.append_assoc]

/-- Witness for C10 at concrete inputs. -/
theorem munmap_failure_ignored_witness :
    (run osMunmapFail ["./oom_alloc", "--shared"]).2 = 0 ∧
    (run osMunmapFail ["./oom_alloc", "--shared"]).1 =
      (bannerLines true ++
       ([Ev.openAcct true] ++ pmcLoop "initial state" sampleMeminfo ++ [Ev.closeAcct]) ++
       [Ev.mmapCall (PROT_READ ||| PROT_WRITE) (MAP_ANONYMOUS ||| MAP_SHARED)
         length true] ++
       ([Ev.openAcct true] ++ pmcLoop "parent mem allocated" sampleMeminfo ++ [Ev.closeAcct]) ++
       [Ev.writeRegion numSlots] ++
       ([Ev.openAcct true] ++ pmcLoop "parent mem initialized" sampleMeminfo ++ [Ev.closeAcct]) ++
       [Ev.mprotectCall PROT_READ length true] ++
       ([Ev.openAcct true] ++ pmcLoop "parent mem set-readonly" sampleMeminfo ++ [Ev.closeAcct]) ++
       forkOkEvs NUM_CHLD ++
       ([Ev.openAcct true] ++ pmcLoop "parent forked children" sampleMeminfo ++ [Ev.closeAcct]) ++
       waitOkEvs NUM_CHLD ++
       ([Ev.openAcct true] ++ pmcLoop "parent reaped children" sampleMeminfo ++ [Ev.closeAcct])) ++
      ([Ev.munmapCall length false, Ev.openAcct true] ++
       pmcLoop "parent mem unmapped" sampleMeminfo ++ [Ev.closeAcct]) :=
  munmap_failure_ignored osMunmapFail (fun _ => sampleMeminfo) "./oom_alloc"
    (fun _ => rfl) rfl rfl (fun _ _ => rfl) (fun _ _ => rfl) rfl

/-- Oracle whose accounting source cannot be opened. -/
def osOpenFail : OS := { osAllOk with meminfo := fun _ => none }

/-- Oracle whose mapping request fails. -/
def osMmapFail : OS := { osAllOk with mmapOk := false }

/-- Oracle whose protection change fails. -/
def osMprotFail : OS := { osAllOk with mprotectOk := false }

/-- Oracle whose process creation fails. -/
def osForkFail : OS := { osAllOk with forkOk := fun _ => false }

/-- Oracle whose wait fails. -/
def osWaitFail : OS := { osAllOk with waitOk := fun _ => false }

/-- Claim C6: each resource-acquisition failure — accounting-source open
failure, mapping-request failure, protection-change failure,
process-creation failure, wait failure — is handled uniformly: the trace
ends at the failure point with a stderr report of the operation name and the
underlying OS error description, the exit status is 1 (non-zero), there is
no retry, and no cleanup of already-acquired resources happens (in
particular, the region is never unmapped on any failure path). -/
theorem uniform_fatal_error_handling :
    (∀ (os : OS) (p : String), os.meminfo 0 = none →
      run os [p, "--shared"] =
        (bannerLines true ++
          [Ev.openAcct false, Ev.err ("file open: " ++ os.errstr)], 1) ∧
      (run os [p, "--shared"]).1.filter isMunmap = []) ∧
    (∀ (os : OS) (p : String) (c0 : List String),
      os.meminfo 0 = some c0 → os.mmapOk = false →
      run os [p, "--shared"] =
        (bannerLines true ++
          ([Ev.openAcct true] ++ pmcLoop "initial state" c0 ++ [Ev.closeAcct]) ++
          [Ev.mmapCall (PROT_READ ||| PROT_WRITE) (MAP_ANONYMOUS ||| MAP_SHARED)
            length false,
           Ev.err ("mmap: " ++ os.errstr)], 1) ∧
      (run os [p, "--shared"]).1.filter isMunmap = []) ∧
    (∀ (os : OS) (p : String) (c0 c1 c2 : List String),
      os.meminfo 0 = some c0 → os.meminfo 1 = some c1 → os.meminfo 2 = some c2 →
      os.mmapOk = true → os.mprotectOk = false →
      run os [p, "--shared"] =
        (bannerLines true ++
          ([Ev.openAcct true] ++ pmcLoop "initial state" c0 ++ [Ev.closeAcct]) ++
          [Ev.mmapCall (PROT_READ ||| PROT_WRITE) (MAP_ANONYMOUS ||| MAP_SHARED)
            length true] ++
          ([Ev.openAcct true] ++ pmcLoop "parent mem allocated" c1 ++ [Ev.closeAcct]) ++
          [Ev.writeRegion numSlots] ++
          ([Ev.openAcct true] ++ pmcLoop "parent mem initialized" c2 ++ [Ev.closeAcct]) ++
          [Ev.mprotectCall PROT_READ length false,
           Ev.err ("mprotect: " ++ os.errstr)], 1) ∧
      (run os [p, "--shared"]).1.filter isMunmap = []) ∧
    (∀ (os : OS) (p : String) (c0 c1 c2 c3 : List String) (i : Nat),
      os.meminfo 0 = some c0 → os.meminfo 1 = some c1 → os.meminfo 2 = some c2 →
      os.meminfo 3 = some c3 → os.mmapOk = true → os.mprotectOk = true →
      i < NUM_CHLD → os.forkOk i = false → (∀ j, j < i → os.forkOk j = true) →
      run os [p, "--shared"] =
        (bannerLines true ++
          ([Ev.openAcct true] ++ pmcLoop "initial state" c0 ++ [Ev.closeAcct]) ++
          [Ev.mmapCall (PROT_READ ||| PROT_WRITE) (MAP_ANONYMOUS ||| MAP_SHARED)
            length true] ++
          ([Ev.openAcct true] ++ pmcLoop "parent mem allocated" c1 ++ [Ev.closeAcct]) ++
          [Ev.writeRegion numSlots] ++
          ([Ev.openAcct true] ++ pmcLoop "parent mem initialized" c2 ++ [Ev.closeAcct]) ++
          [Ev.mprotectCall PROT_READ length true] ++
          ([Ev.openAcct true] ++ pmcLoop "parent mem set-readonly" c3 ++ [Ev.closeAcct]) ++
          forkOkEvs i ++
          [Ev.forkCall i false, Ev.err ("fork: " ++ os.errstr)], 1) ∧
      (run os [p, "--shared"]).1.filter isMunmap = []) ∧
    (∀ (os : OS) (p : String) (c0 c1 c2 c3 c4 : List String) (i : Nat),
      os.meminfo 0 = some c0 → os.meminfo 1 = some c1 → os.meminfo 2 = some c2 →
      os.meminfo 3 = some c3 → os.meminfo 4 = some c4 →
      os.mmapOk = true → os.mprotectOk = true →
      (∀ j, j < NUM_CHLD → os.forkOk j = true) →
      i < NUM_CHLD → os.waitOk i = false → (∀ j, j < i → os.waitOk j = true) →
      run os [p, "--shared"] =
        (bannerLines true ++
          ([Ev.openAcct true] ++ pmcLoop "initial state" c0 ++ [Ev.closeAcct]) ++
          [Ev.mmapCall (PROT_READ ||| PROT_WRITE) (MAP_ANONYMOUS ||| MAP_SHARED)
            length true] ++
          ([Ev.openAcct true] ++ pmcLoop "parent mem allocated" c1 ++ [Ev.closeAcct]) ++
          [Ev.writeRegion numSlots] ++
          ([Ev.openAcct true] ++ pmcLoop "parent mem initialized" c2 ++ [Ev.closeAcct]) ++
          [Ev.mprotectCall PROT_READ length true] ++
          ([Ev.openAcct true] ++ pmcLoop "parent mem set-readonly" c3 ++ [Ev.closeAcct]) ++
          forkOkEvs NUM_CHLD ++
          ([Ev.openAcct true] ++ pmcLoop "parent forked children" c4 ++ [Ev.closeAcct]) ++
          waitOkEvs i ++
          [Ev.waitCall i false, Ev.err ("wait: " ++ os.errstr)], 1) ∧
      (run os [p, "--shared"]).1.filter isMunmap = []) := by
  have hpmc : ∀ msg lines, (pmcLoop msg lines).filter isMunmap = [] :=
    filter_pmcLoop_eq_nil isMunmap fun s => rfl
  have hfk : ∀ n, (forkOkEvs n).filter isMunmap = [] := fun n =>
    filter_map_eq_nil _ _ (fun i => rfl) _
  have hwt : ∀ n, (waitOkEvs n).filter isMunmap = [] := fun n =>
    filter_map_eq_nil _ _ (fun i => rfl) _
  refine ⟨?_, ?_, ?_, ?_, ?_⟩
  · intro os p h
    constructor
    · simp [run, mainBody, print_mem_commit, h, finishRun]
    · simp [run, mainBody, print_mem_commit, h, finishRun,
            List.filter_append, bannerLines, List.filter_cons, isMunmap]
  · intro os p c0 h0 hm
    constructor
    · simp [run, mainBody, print_mem_commit, h0, hm, finishRun,
            List.append_assoc]
    · simp [run, mainBody, print_mem_commit, h0, hm, finishRun,
            List.filter_append, bannerLines, List.filter_cons, isMunmap, hpmc]
  · intro os p c0 c1 c2 h0 h1 h2 hm hp
    constructor
    · simp [run, mainBody, print_mem_commit, h0, h1, h2, hm, hp, finishRun,
            List.append_assoc]
    · simp [run, mainBody, print_mem_commit, h0, h1, h2, hm, hp, finishRun,
            List.filter_append, bannerLines, List.filter_cons, isMunmap, hpmc]
  · intro os p c0 c1 c2 c3 i h0 h1 h2 h3 hm hp hi hfi hprev
    have hfe := forkLoop_err os NUM_CHLD i hi hfi hprev
    constructor
    · simp [run, mainBody, print_mem_commit, h0, h1, h2, h3, hm, hp, hfe,
            finishRun, List.append_assoc]
    · simp [run, mainBody, print_mem_commit, h0, h1, h2, h3, hm, hp, hfe,
            finishRun, List.filter_append, bannerLines, List.filter_cons,
            isMunmap, hpmc, hfk]
  · intro os p c0 c1 c2 c3 c4 i h0 h1 h2 h3 h4 hm hp hforks hi hwi hprev
    have hfe := forkLoop_ok os NUM_CHLD hforks
    have hwe := waitLoop_err os NUM_CHLD i hi hwi hprev
    constructor
    · simp [run, mainBody, print_mem_commit, h0, h1, h2, h3, h4, hm, hp, hfe,
            hwe, finishRun, List.append_assoc]
    · simp [run, mainBody, print_mem_commit, h0, h1, h2, h3, h4, hm, hp, hfe,
            hwe, finishRun, List.filter_append, bannerLines, List.filter_cons,
            isMunmap, hpmc, hfk, hwt]

/-- Witness for C6: each of the five failure kinds exercised on a concrete
oracle (the fork and wait failures at child index 0). -/
theorem uniform_fatal_error_handling_witness :
    (run osOpenFail ["./oom_alloc", "--shared"] =
        (bannerLines true ++
          [Ev.openAcct false, Ev.err ("file open: " ++ osOpenFail.errstr)], 1) ∧
      (run osOpenFail ["./oom_alloc", "--shared"]).1.filter isMunmap = []) ∧
    (run osMmapFail ["./oom_alloc", "--shared"] =
        (bannerLines true ++
          ([Ev.openAcct true] ++ pmcLoop "initial state" sampleMeminfo ++ [Ev.closeAcct]) ++
          [Ev.mmapCall (PROT_READ ||| PROT_WRITE) (MAP_ANONYMOUS ||| MAP_SHARED)
            length false,
           Ev.err ("mmap: " ++ osMmapFail.errstr)], 1) ∧
      (run osMmapFail ["./oom_alloc", "--shared"]).1.filter isMunmap = []) ∧
    (run osMprotFail ["./oom_alloc", "--shared"] =
        (bannerLines true ++
          ([Ev.openAcct true] ++ pmcLoop "initial state" sampleMeminfo ++ [Ev.closeAcct]) ++
          [Ev.mmapCall (PROT_READ ||| PROT_WRITE) (MAP_ANONYMOUS ||| MAP_SHARED)
            length true] ++
          ([Ev.openAcct true] ++ pmcLoop "parent mem allocated" sampleMeminfo ++ [Ev.closeAcct]) ++
          [Ev.writeRegion numSlots] ++
          ([Ev.openAcct true] ++ pmcLoop "parent mem initialized" sampleMeminfo ++ [Ev.closeAcct]) ++
          [Ev.mprotectCall PROT_READ length false,
           Ev.err ("mprotect: " ++ osMprotFail.errstr)], 1) ∧
      (run osMprotFail ["./oom_alloc", "--shared"]).1.filter isMunmap = []) ∧
    (run osForkFail ["./oom_alloc", "--shared"] =
        (bannerLines true ++
          ([Ev.openAcct true] ++ pmcLoop "initial state" sampleMeminfo ++ [Ev.closeAcct]) ++
          [Ev.mmapCall (PROT_READ ||| PROT_WRITE) (MAP_ANONYMOUS ||| MAP_SHARED)
            length true] ++
          ([Ev.openAcct true] ++ pmcLoop "parent mem allocated" sampleMeminfo ++ [Ev.closeAcct]) ++
          [Ev.writeRegion numSlots] ++
          ([Ev.openAcct true] ++ pmcLoop "parent mem initialized" sampleMeminfo ++ [Ev.closeAcct]) ++
          [Ev.mprotectCall PROT_READ length true] ++
          ([Ev.openAcct true] ++ pmcLoop "parent mem set-readonly" sampleMeminfo ++ [Ev.closeAcct]) ++
          forkOkEvs 0 ++
          [Ev.forkCall 0 false, Ev.err ("fork: " ++ osForkFail.errstr)], 1) ∧
      (run osForkFail ["./oom_alloc", "--shared"]).1.filter isMunmap = []) ∧
    (run osWaitFail ["./oom_alloc", "--shared"] =
        (bannerLines true ++
          ([Ev.openAcct true] ++ pmcLoop "initial state" sampleMeminfo ++ [Ev.closeAcct]) ++
          [Ev.mmapCall (PROT_READ ||| PROT_WRITE) (MAP_ANONYMOUS ||| MAP_SHARED)
            length true] ++
          ([Ev.openAcct true] ++ pmcLoop "parent mem allocated" sampleMeminfo ++ [Ev.closeAcct]) ++
          [Ev.writeRegion numSlots] ++
          ([Ev.openAcct true] ++ pmcLoop "parent mem initialized" sampleMeminfo ++ [Ev.closeAcct]) ++
          [Ev.mprotectCall PROT_READ length true] ++
          ([Ev.openAcct true] ++ pmcLoop "parent mem set-readonly" sampleMeminfo ++ [Ev.closeAcct]) ++
          forkOkEvs NUM_CHLD ++
          ([Ev.openAcct true] ++ pmcLoop "parent forked children" sampleMeminfo ++ [Ev.closeAcct]) ++
          waitOkEvs 0 ++
          [Ev.waitCall 0 false, Ev.err ("wait: " ++ osWaitFail.errstr)], 1) ∧
      (run osWaitFail ["./oom_alloc", "--shared"]).1.filter isMunmap = []) :=
  ⟨uniform_fatal_error_handling.1 osOpenFail "./oom_alloc" rfl,
   uniform_fatal_error_handling.2.1 osMmapFail "./oom_alloc" sampleMeminfo rfl rfl,
   uniform_fatal_error_handling.2.2.1 osMprotFail "./oom_alloc"
     sampleMeminfo sampleMeminfo sampleMeminfo rfl rfl rfl rfl rfl,
   uniform_fatal_error_handling.2.2.2.1 osForkFail "./oom_alloc"
     sampleMeminfo sampleMeminfo sampleMeminfo sampleMeminfo 0
     rfl rfl rfl rfl rfl rfl (by decide) rfl
     (fun j hj => absurd hj (Nat.not_lt_zero j)),
   uniform_fatal_error_handling.2.2.2.2 osWaitFail "./oom_alloc"
     sampleMeminfo sampleMeminfo sampleMeminfo sampleMeminfo sampleMeminfo 0
     rfl rfl rfl rfl rfl rfl rfl (fun j hj => rfl) (by decide) rfl
     (fun j hj => absurd hj (Nat.not_lt_zero j))⟩

end OomAlloc
